import Mathlib

/-!
Verification of the contact-management backend (goit-python-web-hw14).

This file shallowly embeds the parts of the code that the specification's
claims are about:

* the calendar arithmetic of `datetime.date + timedelta` used by
  `get_upcoming_birthdays` (src/repository/contacts.py);
* the contact repository operations `get_contact`, `create_contact`,
  `update_contact`, `remove_contact`, `get_upcoming_birthdays`;
* the token lifecycle in `src/services/auth.py` (`create_access_token`,
  `create_refresh_token`, `create_email_token`, `decode_refresh_token`,
  `get_current_user`, `get_email_from_token`);
* the auth routes `login` and `refresh_token` (src/routes/auth.py) together
  with the user repository (`get_user_by_email`, `update_token`).

The SQLAlchemy store is modelled as an explicit list of rows, JWTs as their
claim sets together with a flag recording whether they verify against the
service's secret, and Python exception propagation as an explicit error
codomain (`Except Err`).
-/

/-! ## Calendar model (Python `datetime.date`) -/

/-- A Gregorian calendar date, as Python's `datetime.date`. -/
structure PDate where
  year : Nat
  month : Nat
  day : Nat
deriving Repr, DecidableEq

/-- Gregorian leap-year rule, as used by Python's `datetime.date`. -/
def isLeap (y : Nat) : Bool :=
  (y % 4 == 0 && y % 100 != 0) || (y % 400 == 0)

/-- Number of days of month `m` in year `y` (months outside 1..12 default
to 31; such dates are never valid). -/
def daysInMonth (y m : Nat) : Nat :=
  if m == 2 then (if isLeap y then 29 else 28)
  else if m == 4 || m == 6 || m == 9 || m == 11 then 30
  else 31

/-- A date is valid when its month is 1..12 and its day fits the month. -/
def validDate (d : PDate) : Prop :=
  1 ≤ d.month ∧ d.month ≤ 12 ∧ 1 ≤ d.day ∧ d.day ≤ daysInMonth d.year d.month

instance (d : PDate) : Decidable (validDate d) := by
  unfold validDate; infer_instance

/-- The successor day, as `datetime.date + timedelta(days=1)`. -/
def nextDay (d : PDate) : PDate :=
  if d.day < daysInMonth d.year d.month then ⟨d.year, d.month, d.day + 1⟩
  else if d.month < 12 then ⟨d.year, d.month + 1, 1⟩
  else ⟨d.year + 1, 1, 1⟩

/-- `addDays d n` is `d + timedelta(days=n)`. -/
def addDays (d : PDate) : Nat → PDate
  | 0 => d
  | n + 1 => addDays (nextDay d) n

/-- The first day of the month after the one containing `d`. -/
def rollMonth (d : PDate) : PDate :=
  if d.month < 12 then ⟨d.year, d.month + 1, 1⟩ else ⟨d.year + 1, 1, 1⟩

/-! ## Row types (src/database/models.py) -/

/-- Error outcomes of a request path. `unauthenticated` is the HTTP 401
`HTTPException`; `badRequest` is 400; `unprocessable` is 422;
`keyError` and `attributeError` model uncaught Python exceptions escaping
the handler (`payload['scope']` on a payload without the key, attribute
access on `None`); `upstreamError` models an exception raised by the Redis
client and left uncaught. -/
inductive Err where
  | unauthenticated
  | badRequest
  | unprocessable
  | keyError
  | attributeError
  | upstreamError
deriving Repr, DecidableEq

/-- The claim set of a JWT as minted and decoded by `src/services/auth.py`,
plus `sig_ok` recording whether the string verifies against the service's
`SECRET_KEY`/`ALGORITHM`. `scope` and `sub` are `none` when the payload
lacks the key. -/
structure Token where
  sub : Option String
  scope : Option String
  iat : Nat
  exp : Nat
  sig_ok : Bool
deriving Repr, DecidableEq

/-- A row of the `users` table. The stored `refresh_token` column holds the
encoded token string; two encoded tokens are equal exactly when their claim
sets are, so it is modelled as an optional `Token`. -/
structure User where
  id : Nat
  username : String
  email : String
  password : String
  avatar : Option String
  refresh_token : Option Token
  confirmed : Bool
deriving Repr, DecidableEq

/-- A row of the `contacts` table. Timestamps are abstract ticks. -/
structure Contact where
  id : Nat
  first_name : String
  last_name : String
  email : String
  phone_number : String
  birthday : Option PDate
  additional_info : Option String
  created_at : Nat
  updated_at : Nat
  user_id : Nat
deriving Repr, DecidableEq

/-- `ContactModel` (src/schemas.py): the create body; every field required
except `additional_info`. -/
structure ContactModel where
  first_name : String
  last_name : String
  email : String
  phone_number : String
  birthday : PDate
  additional_info : Option String
deriving Repr, DecidableEq

/-- `ContactUpdate` (src/schemas.py): the patch body; `none` models a field
absent from the request, which `model_dump(exclude_unset=True)` drops. -/
structure ContactUpdate where
  first_name : Option String
  last_name : Option String
  email : Option String
  phone_number : Option String
  birthday : Option PDate
  additional_info : Option String
deriving Repr, DecidableEq

/-! ## Token service (src/services/auth.py) -/

/-- Expiry computation shared by the minting methods. Python's
`if expires_delta:` treats both `None` and `0` as falsy, so both fall back
to the default lifetime. -/
def tokenExpiry (now : Nat) (expires_delta : Option Nat) (dflt : Nat) : Nat :=
  match expires_delta with
  | some s => if s == 0 then now + dflt else now + s
  | none => now + dflt

/-- `Auth.create_access_token`: scope `access_token`, default life 15 min. -/
def create_access_token (sub : String) (now : Nat)
    (expires_delta : Option Nat) : Token :=
  ⟨some sub, some "access_token", now, tokenExpiry now expires_delta 900, true⟩

/-- `Auth.create_refresh_token`: scope `refresh_token`, default 7 days. -/
def create_refresh_token (sub : String) (now : Nat)
    (expires_delta : Option Nat) : Token :=
  ⟨some sub, some "refresh_token", now,
    tokenExpiry now expires_delta 604800, true⟩

/-- `Auth.create_email_token`: 7-day life and no `scope` claim at all. -/
def create_email_token (sub : String) (now : Nat) : Token :=
  ⟨some sub, none, now, now + 604800, true⟩

/-- `jwt.decode` succeeds iff the token verifies against the secret and is
not expired; `python-jose` rejects exactly when `exp < now`. -/
def decodeOk (t : Token) (now : Nat) : Bool :=
  t.sig_ok && decide (now ≤ t.exp)

/-- `Auth.decode_refresh_token`: decode (`JWTError` is caught and turned
into 401), then require `payload['scope'] == 'refresh_token'` and return
`payload['sub']`. A payload without `scope` or `sub` raises `KeyError`,
which the `except JWTError` clause does not catch. -/
def decode_refresh_token (t : Token) (now : Nat) : Except Err String :=
  if decodeOk t now then
    match t.scope with
    | none => Except.error Err.keyError
    | some s =>
      if s == "refresh_token" then
        match t.sub with
        | none => Except.error Err.keyError
        | some email => Except.ok email
      else Except.error Err.unauthenticated
  else Except.error Err.unauthenticated

/-- `Auth.get_email_from_token`: decode and return `payload['sub']`, with
no scope check of any kind; `JWTError` becomes HTTP 422. -/
def get_email_from_token (t : Token) (now : Nat) : Except Err String :=
  if decodeOk t now then
    match t.sub with
    | none => Except.error Err.keyError
    | some email => Except.ok email
  else Except.error Err.unprocessable

/-- The reply obtained from `self.r.get(...)`: a deserialized hit, a `None`
miss, or an exception raised by the client. -/
inductive CacheGet (α : Type) where
  | hit (v : α)
  | miss
  | failure
deriving Repr, DecidableEq

/-- The write the handler asks of the cache: nothing, or
`set key (pickle u)` followed by `expire key ttl`. -/
inductive CacheAction where
  | noop
  | setWithExpire (key : String) (u : User) (ttl : Nat)
deriving Repr, DecidableEq

/-! ## User repository (src/repository/users.py) -/

/-- `get_user_by_email`: first row of `users` filtered by email. -/
def get_user_by_email (email : String) (db : List User) : Option User :=
  db.find? (fun u => u.email == email)

/-- `update_token`: write `token` into the fetched row's `refresh_token`
column and commit. In the list model every row carrying the user's email is
rewritten; `users.email` is unique, so at most one row is. -/
def update_token (email : String) (t : Option Token) (db : List User) :
    List User :=
  db.map (fun u => if u.email == email then { u with refresh_token := t } else u)

/-- `Auth.get_current_user`: decode, require scope `access_token` and a
subject, then consult the Redis cache under `user:{email}`; a `None` reply
falls back to the store and re-populates the cache with a 900-second
expiry. An exception from the cache client propagates — there is no
try/except around `self.r.get`. (The code's `if email is None` check is
unreachable here because a payload missing `sub` already raises `KeyError`,
and tokens minted by the service always carry a string subject.) -/
def get_current_user (t : Token) (now : Nat) (cache : CacheGet User)
    (db : List User) : Except Err User × CacheAction :=
  if decodeOk t now then
    match t.scope with
    | none => (Except.error Err.keyError, CacheAction.noop)
    | some s =>
      if s == "access_token" then
        match t.sub with
        | none => (Except.error Err.keyError, CacheAction.noop)
        | some email =>
          match cache with
          | CacheGet.failure => (Except.error Err.upstreamError, CacheAction.noop)
          | CacheGet.hit u => (Except.ok u, CacheAction.noop)
          | CacheGet.miss =>
            match get_user_by_email email db with
            | none => (Except.error Err.unauthenticated, CacheAction.noop)
            | some u =>
                (Except.ok u,
                  CacheAction.setWithExpire (String.append "user:" email) u 900)
      else (Except.error Err.unauthenticated, CacheAction.noop)
  else (Except.error Err.unauthenticated, CacheAction.noop)

/-! ## Auth routes (src/routes/auth.py) -/

/-- The `/login` route: look the user up by the submitted username (an
email); reject unknown email, unconfirmed email, then wrong password, each
with 401; on success mint an access and a refresh token for `user.email`
and store the refresh token. The password check is the opaque one-way
`pwd_context.verify`, passed in as `verify_password`. The pair returned is
`(outcome, new users table)`. -/
def login (verify_password : String → String → Bool)
    (username password : String) (now : Nat) (db : List User) :
    Except Err (Token × Token) × List User :=
  match get_user_by_email username db with
  | none => (Except.error Err.unauthenticated, db)
  | some user =>
    if user.confirmed = false then (Except.error Err.unauthenticated, db)
    else if verify_password password user.password = false then
      (Except.error Err.unauthenticated, db)
    else
      let access := create_access_token user.email now none
      let refresh := create_refresh_token user.email now none
      (Except.ok (access, refresh), update_token user.email (some refresh) db)

/-- The `/refresh_token` route: decode the presented token, fetch the user
by the decoded email, and compare with the stored token. The code reads
`user.refresh_token` without checking `user` for `None`, so an absent user
raises `AttributeError`. A mismatch clears the stored token and raises 401;
a match mints a fresh pair and stores the new refresh token. -/
def refresh_token (t : Token) (now : Nat) (db : List User) :
    Except Err (Token × Token) × List User :=
  match decode_refresh_token t now with
  | Except.error e => (Except.error e, db)
  | Except.ok email =>
    match get_user_by_email email db with
    | none => (Except.error Err.attributeError, db)
    | some user =>
      if user.refresh_token ≠ some t then
        (Except.error Err.unauthenticated, update_token email none db)
      else
        let access := create_access_token email now none
        let refresh := create_refresh_token email now none
        (Except.ok (access, refresh), update_token email (some refresh) db)

/-! ## Contact repository (src/repository/contacts.py) -/

/-- The ownership filter shared by `get_contact`, `update_contact` and
`remove_contact`: `Contact.id == contact_id AND Contact.user_id == user.id`. -/
def ownedBy (contact_id : Nat) (user : User) (c : Contact) : Bool :=
  c.id == contact_id && c.user_id == user.id

/-- `get_contact`: `.first()` of the rows passing the ownership filter. -/
def get_contact (contact_id : Nat) (user : User) (db : List Contact) :
    Option Contact :=
  db.find? (ownedBy contact_id user)

/-- `create_contact`: the insert commits unless the store rejects it; the
unique constraint on `contacts.email` makes the commit fail whenever any
existing row, whoever owns it, already carries the email, in which case the
session is rolled back and HTTP 400 raised. `new_id` stands for the
autogenerated primary key, `now` for `func.now()`. -/
def create_contact (body : ContactModel) (user : User) (db : List Contact)
    (new_id now : Nat) : Except Err Contact × List Contact :=
  if db.any (fun c => c.email == body.email) then
    (Except.error Err.badRequest, db)
  else
    let contact : Contact :=
      ⟨new_id, body.first_name, body.last_name, body.email, body.phone_number,
        some body.birthday, body.additional_info, now, now, user.id⟩
    (Except.ok contact, db ++ [contact])

/-- Drop the first row passing `p` (the row `.first()` fetched and
`db.delete` removed). -/
def removeFirst (p : Contact → Bool) : List Contact → List Contact
  | [] => []
  | c :: rest => if p c then rest else c :: removeFirst p rest

/-- `remove_contact`: fetch by the ownership filter; when found, delete the
row and return it, otherwise return `None` and leave the store alone. -/
def remove_contact (contact_id : Nat) (user : User) (db : List Contact) :
    Option Contact × List Contact :=
  match db.find? (ownedBy contact_id user) with
  | none => (none, db)
  | some c => (some c, removeFirst (ownedBy contact_id user) db)

/-- The `setattr` loop over `body.model_dump(exclude_unset=True)`:
fields absent from the patch keep the row's values. -/
def applyPatch (body : ContactUpdate) (c : Contact) : Contact :=
  { c with
    first_name := body.first_name.getD c.first_name
    last_name := body.last_name.getD c.last_name
    email := body.email.getD c.email
    phone_number := body.phone_number.getD c.phone_number
    birthday := match body.birthday with
      | none => c.birthday
      | some b => some b
    additional_info := match body.additional_info with
      | none => c.additional_info
      | some v => some v }

/-- Replace the first row passing `p` by `c'`. -/
def replaceFirst (p : Contact → Bool) (c' : Contact) : List Contact → List Contact
  | [] => []
  | c :: rest => if p c then c' :: rest else c :: replaceFirst p c' rest

/-- The row as committed by `update_contact`: at flush time SQLAlchemy
compares each attribute with its committed value and emits an UPDATE only
when some column has a net change (documented under `Session.dirty`); only
then does the `onupdate=func.now()` of `updated_at` fire, modelled by
stamping `now`. -/
def patchedContact (body : ContactUpdate) (c : Contact) (now : Nat) : Contact :=
  if applyPatch body c = c then c
  else { applyPatch body c with updated_at := now }

/-- `update_contact`: fetch by the ownership filter; when found, apply the
patch (`setattr` over the set fields) and commit, returning the row. -/
def update_contact (contact_id : Nat) (body : ContactUpdate) (user : User)
    (db : List Contact) (now : Nat) : Option Contact × List Contact :=
  match db.find? (ownedBy contact_id user) with
  | none => (none, db)
  | some c =>
    (some (patchedContact body c now),
      replaceFirst (ownedBy contact_id user) (patchedContact body c now) db)

/-- The row filter of `get_upcoming_birthdays`: `in_a_week = today +
timedelta(days=7)`; in the same-month case the birthday's month must equal
today's and its day lie in `[today.day, in_a_week.day]`; in the
month-spanning case it must sit in the tail of today's month or in the head
of `in_a_week`'s month. -/
def upcomingMatch (today : PDate) (bm bd : Nat) : Bool :=
  let in_a_week := addDays today 7
  if today.month == in_a_week.month then
    bm == today.month && decide (today.day ≤ bd) && decide (bd ≤ in_a_week.day)
  else
    (bm == today.month && decide (today.day ≤ bd)) ||
    (bm == in_a_week.month && decide (bd ≤ in_a_week.day))

/-- SQL `extract` on a `NULL` birthday yields `NULL`, which satisfies no
comparison: a contact without a birthday never matches. -/
def birthdayMatches (today : PDate) : Option PDate → Bool
  | none => false
  | some b => upcomingMatch today b.month b.day

/-- `get_upcoming_birthdays`: the user's contacts whose birthday passes the
window filter. -/
def get_upcoming_birthdays (db : List Contact) (user : User) (today : PDate) :
    List Contact :=
  db.filter (fun c => c.user_id == user.id && birthdayMatches today c.birthday)

/-- Modelled from the spec (§4.1 Birthday Window Matcher), for comparison
with the code's `upcomingMatch`: `window_end = today + 6 days`, case A when
the window stays in one month, case B when it spans two. -/
def specWindowMatch (today : PDate) (bm bd : Nat) : Bool :=
  let window_end := addDays today 6
  if today.month == window_end.month then
    bm == today.month && decide (today.day ≤ bd) && decide (bd ≤ window_end.day)
  else
    (bm == today.month && decide (today.day ≤ bd)) ||
    (bm == window_end.month && decide (bd ≤ window_end.day))

/-! ## Calendar lemmas -/

theorem addDays_succ (d : PDate) (n : Nat) :
    addDays d (n + 1) = addDays (nextDay d) n := rfl

theorem addDays_add (d : PDate) (a b : Nat) :
    addDays d (a + b) = addDays (addDays d a) b := by
  induction a generalizing d with
  | zero => simp [addDays]
  | succ k ih =>
      have : k + 1 + b = (k + b) + 1 := by omega
      rw [this]
      show addDays (nextDay d) (k + b) = addDays (addDays (nextDay d) k) b
      exact ih (nextDay d)

/-- Adding days without leaving the month just increments the day. -/
theorem addDays_same_month (d : PDate) (n : Nat)
    (h : d.day + n ≤ daysInMonth d.year d.month) :
    addDays d n = ⟨d.year, d.month, d.day + n⟩ := by
  induction n generalizing d with
  | zero => simp [addDays]
  | succ k ih =>
      have hlt : d.day < daysInMonth d.year d.month := by omega
      have hnd : nextDay d = ⟨d.year, d.month, d.day + 1⟩ := by
        unfold nextDay; simp [hlt]
      rw [addDays_succ, hnd]
      have h2 : (PDate.mk d.year d.month (d.day + 1)).day + k
          ≤ daysInMonth (PDate.mk d.year d.month (d.day + 1)).year
              (PDate.mk d.year d.month (d.day + 1)).month := by
        simp; omega
      rw [ih _ h2]
      simp; omega

theorem addDays_snoc (d : PDate) (n : Nat) :
    addDays d (n + 1) = nextDay (addDays d n) := by
  rw [addDays_add d n 1]; rfl

/-- Every month has at least 28 days. -/
theorem daysInMonth_ge (y m : Nat) : 28 ≤ daysInMonth y m := by
  unfold daysInMonth
  split
  · split <;> omega
  · split <;> omega

theorem nextDay_last (d : PDate) (h : d.day = daysInMonth d.year d.month) :
    nextDay d = rollMonth d := by
  unfold nextDay rollMonth
  rw [if_neg (by omega)]

theorem rollMonth_month_ne (d : PDate) (h1 : 1 ≤ d.month) (h2 : d.month ≤ 12) :
    (rollMonth d).month ≠ d.month := by
  unfold rollMonth
  split
  · intro h; simp at h
  · intro h; simp at h; omega

/-- Crossing the month boundary: `k` more days reach the last day of the
month, and `j` further days land on day `1 + j` of the next month. -/
theorem addDays_cross (d : PDate) (k j : Nat)
    (hk : d.day + k = daysInMonth d.year d.month) (hj : j ≤ 27) :
    addDays d (k + 1 + j) =
      ⟨(rollMonth d).year, (rollMonth d).month, 1 + j⟩ := by
  have hlast : addDays d k = ⟨d.year, d.month, d.day + k⟩ :=
    addDays_same_month d k (by omega)
  have hroll : addDays d (k + 1) = rollMonth d := by
    rw [addDays_snoc, hlast]
    have : (PDate.mk d.year d.month (d.day + k)).day
        = daysInMonth (PDate.mk d.year d.month (d.day + k)).year
            (PDate.mk d.year d.month (d.day + k)).month := by
      simpa using hk
    rw [nextDay_last _ this]
    unfold rollMonth
    split <;> simp_all
  have hmr : (rollMonth d).day = 1 := by unfold rollMonth; split <;> rfl
  have hbig : 28 ≤ daysInMonth (rollMonth d).year (rollMonth d).month :=
    daysInMonth_ge _ _
  rw [addDays_add d (k + 1) j, hroll]
  have := addDays_same_month (rollMonth d) j (by omega)
  rw [this, hmr]

/-- The code's window filter accepts exactly the (month, day) pairs realized
by `today + i` for some `0 ≤ i ≤ 7`, for any birthday whose day number
exists in month `bm` of today's year. -/
theorem upcomingMatch_iff (today : PDate) (hv : validDate today) (bm bd : Nat)
    (hd1 : 1 ≤ bd) (hd2 : bd ≤ daysInMonth today.year bm) :
    upcomingMatch today bm bd = true ↔
      ∃ i, i ≤ 7 ∧ (addDays today i).month = bm ∧ (addDays today i).day = bd := by
  obtain ⟨hm1, hm2, hday1, hday2⟩ := hv
  by_cases hc : today.day + 7 ≤ daysInMonth today.year today.month
  · -- the whole window stays inside today's month
    have hweek : addDays today 7 = ⟨today.year, today.month, today.day + 7⟩ :=
      addDays_same_month today 7 hc
    simp only [upcomingMatch, hweek]
    rw [if_pos (by simp)]
    constructor
    · intro h
      simp only [Bool.and_eq_true, beq_iff_eq, decide_eq_true_eq] at h
      obtain ⟨⟨hbm, hge⟩, hle⟩ := h
      refine ⟨bd - today.day, by omega, ?_, ?_⟩
      · rw [addDays_same_month today (bd - today.day) (by omega)]
        simpa using hbm.symm
      · rw [addDays_same_month today (bd - today.day) (by omega)]
        simp; omega
    · rintro ⟨i, hi, h1, h2⟩
      rw [addDays_same_month today i (by omega)] at h1 h2
      simp at h1 h2
      simp only [Bool.and_eq_true, beq_iff_eq, decide_eq_true_eq]
      exact ⟨⟨h1.symm, by omega⟩, by omega⟩
  · -- the window crosses into the next month
    have hc' : daysInMonth today.year today.month < today.day + 7 := by omega
    set k := daysInMonth today.year today.month - today.day with hkdef
    have hk6 : k ≤ 6 := by omega
    have hkL : today.day + k = daysInMonth today.year today.month := by omega
    have h7 : (7 : Nat) = k + 1 + (6 - k) := by omega
    have hweek : addDays today 7 =
        ⟨(rollMonth today).year, (rollMonth today).month, 1 + (6 - k)⟩ := by
      rw [h7]; exact addDays_cross today k (6 - k) hkL (by omega)
    have hne : (today.month == (addDays today 7).month) = false := by
      rw [hweek]
      simp only [beq_eq_false_iff_ne]
      intro h
      exact rollMonth_month_ne today hm1 hm2 (by simpa using h.symm)
    simp only [upcomingMatch]
    rw [if_neg (by simp [hne]), hweek]
    constructor
    · intro h
      simp only [Bool.or_eq_true, Bool.and_eq_true, beq_iff_eq,
        decide_eq_true_eq] at h
      rcases h with ⟨hbm, hge⟩ | ⟨hbm, hle⟩
      · have hbd : bd ≤ daysInMonth today.year today.month := hbm ▸ hd2
        refine ⟨bd - today.day, by omega, ?_, ?_⟩
        · rw [addDays_same_month today (bd - today.day) (by omega)]
          simpa using hbm.symm
        · rw [addDays_same_month today (bd - today.day) (by omega)]
          simp; omega
      · refine ⟨k + 1 + (bd - 1), by omega, ?_, ?_⟩
        · rw [addDays_cross today k (bd - 1) hkL (by omega)]
          simpa using hbm.symm
        · rw [addDays_cross today k (bd - 1) hkL (by omega)]
          simp; omega
    · rintro ⟨i, hi, h1, h2⟩
      simp only [Bool.or_eq_true, Bool.and_eq_true, beq_iff_eq,
        decide_eq_true_eq]
      by_cases hik : i ≤ k
      · left
        rw [addDays_same_month today i (by omega)] at h1 h2
        simp at h1 h2
        exact ⟨h1.symm, by omega⟩
      · right
        have hi' : i = k + 1 + (i - k - 1) := by omega
        rw [hi', addDays_cross today k (i - k - 1) hkL (by omega)] at h1 h2
        simp at h1 h2
        exact ⟨h1.symm, by omega⟩

/-! ## Claim C1: the upcoming-birthdays window -/

/-- C1, counterexample. The claim asserts a 7-day inclusive window
`[today, today+6]`, and in particular that for `today = 2024-05-28` a
birthday of 06-04 is not returned and for `today = 2024-12-28` a birthday
of 01-04 is not returned. The code computes `in_a_week = today +
timedelta(days=7)`, so both of those contacts ARE returned, while the
spec-worded 7-day matcher excludes both. -/
theorem upcoming_birthdays_seven_day_window_refuted :
    get_upcoming_birthdays
        [⟨1, "Ann", "Lee", "ann@e", "1", some ⟨2000, 6, 4⟩, none, 0, 0, 1⟩]
        ⟨1, "alice", "alice@e", "h", none, none, true⟩ ⟨2024, 5, 28⟩ =
      [⟨1, "Ann", "Lee", "ann@e", "1", some ⟨2000, 6, 4⟩, none, 0, 0, 1⟩] ∧
    get_upcoming_birthdays
        [⟨2, "Bob", "Kim", "bob@e", "2", some ⟨2000, 1, 4⟩, none, 0, 0, 1⟩]
        ⟨1, "alice", "alice@e", "h", none, none, true⟩ ⟨2024, 12, 28⟩ =
      [⟨2, "Bob", "Kim", "bob@e", "2", some ⟨2000, 1, 4⟩, none, 0, 0, 1⟩] ∧
    specWindowMatch ⟨2024, 5, 28⟩ 6 4 = false ∧
    specWindowMatch ⟨2024, 12, 28⟩ 1 4 = false := by
  refine ⟨rfl, rfl, rfl, rfl⟩

/-- C1, amended: `get_upcoming_birthdays` returns a contact of the querying
principal iff its birthday's (month, day), read as a recurring annual event
ignoring the year, equals the (month, day) of `today + i` for some
`0 ≤ i ≤ 7` — an inclusive 8-day window `[today, today+7]` — provided the
birthday's day number exists in its month in the evaluation year. -/
theorem upcoming_birthdays_eight_day_window
    (db : List Contact) (user : User) (today : PDate) (c : Contact)
    (b : PDate) (hv : validDate today) (hcb : c.birthday = some b)
    (hb1 : 1 ≤ b.day) (hb2 : b.day ≤ daysInMonth today.year b.month) :
    c ∈ get_upcoming_birthdays db user today ↔
      c ∈ db ∧ c.user_id = user.id ∧
        ∃ i, i ≤ 7 ∧ (addDays today i).month = b.month ∧
          (addDays today i).day = b.day := by
  unfold get_upcoming_birthdays
  rw [List.mem_filter]
  simp only [Bool.and_eq_true, beq_iff_eq, hcb, birthdayMatches]
  rw [upcomingMatch_iff today hv b.month b.day hb1 hb2]

/-- C1, witness for the amended theorem: the 06-04 birthday sits in the
window of 2024-05-28 because `2024-05-28 + 7 = 2024-06-04`. -/
theorem upcoming_birthdays_eight_day_window_witness :
    (⟨1, "Ann", "Lee", "ann@e", "1", some ⟨2000, 6, 4⟩, none, 0, 0, 1⟩ : Contact) ∈
        get_upcoming_birthdays
          [⟨1, "Ann", "Lee", "ann@e", "1", some ⟨2000, 6, 4⟩, none, 0, 0, 1⟩]
          ⟨1, "alice", "alice@e", "h", none, none, true⟩ ⟨2024, 5, 28⟩ ↔
      (⟨1, "Ann", "Lee", "ann@e", "1", some ⟨2000, 6, 4⟩, none, 0, 0, 1⟩ : Contact) ∈
          [(⟨1, "Ann", "Lee", "ann@e", "1", some ⟨2000, 6, 4⟩, none, 0, 0, 1⟩ : Contact)] ∧
        (⟨1, "Ann", "Lee", "ann@e", "1", some ⟨2000, 6, 4⟩, none, 0, 0, 1⟩ : Contact).user_id =
          (⟨1, "alice", "alice@e", "h", none, none, true⟩ : User).id ∧
        ∃ i, i ≤ 7 ∧ (addDays ⟨2024, 5, 28⟩ i).month = (⟨2000, 6, 4⟩ : PDate).month ∧
          (addDays ⟨2024, 5, 28⟩ i).day = (⟨2000, 6, 4⟩ : PDate).day :=
  upcoming_birthdays_eight_day_window
    [⟨1, "Ann", "Lee", "ann@e", "1", some ⟨2000, 6, 4⟩, none, 0, 0, 1⟩]
    ⟨1, "alice", "alice@e", "h", none, none, true⟩ ⟨2024, 5, 28⟩
    ⟨1, "Ann", "Lee", "ann@e", "1", some ⟨2000, 6, 4⟩, none, 0, 0, 1⟩
    ⟨2000, 6, 4⟩ (by decide) rfl (by decide) (by decide)

/-! ## Claim C5: contact CRUD isolation -/

/-- No row passes A's ownership filter for `c.id` when `c` belongs to a
different principal and primary keys are unique. -/
theorem ownedBy_none_of_other_owner
    (db : List Contact) (a b : User) (c : Contact)
    (hmem : c ∈ db) (hown : c.user_id = b.id) (hab : a.id ≠ b.id)
    (hids : (db.map Contact.id).Nodup) :
    db.find? (ownedBy c.id a) = none := by
  rw [List.find?_eq_none]
  intro x hx hpx
  unfold ownedBy at hpx
  simp only [Bool.and_eq_true, beq_iff_eq] at hpx
  obtain ⟨hid, huid⟩ := hpx
  have hxc : x = c := List.inj_on_of_nodup_map hids hx hmem hid
  subst hxc
  omega

/-- C5: read, update and delete by another principal all take the
not-found path — the owner-filtered lookup returns nothing, the store is
left unchanged, and no `Unauthenticated` error and no data of B's contact
is produced. -/
theorem contact_crud_isolation
    (db : List Contact) (a b : User) (c : Contact) (patch : ContactUpdate)
    (now : Nat) (hmem : c ∈ db) (hown : c.user_id = b.id) (hab : a.id ≠ b.id)
    (hids : (db.map Contact.id).Nodup) :
    get_contact c.id a db = none ∧
    update_contact c.id patch a db now = (none, db) ∧
    remove_contact c.id a db = (none, db) := by
  have hnone := ownedBy_none_of_other_owner db a b c hmem hown hab hids
  refine ⟨hnone, ?_, ?_⟩
  · unfold update_contact
    rw [hnone]
  · unfold remove_contact
    rw [hnone]

/-- C5, witness: principal 1 probing the single contact of principal 2. -/
theorem contact_crud_isolation_witness :
    get_contact 4 ⟨1, "alice", "alice@e", "h", none, none, true⟩
        [⟨4, "Bea", "Ng", "bea@e", "1", none, none, 0, 0, 2⟩] = none ∧
    update_contact 4 ⟨some "X", none, none, none, none, none⟩
        ⟨1, "alice", "alice@e", "h", none, none, true⟩
        [⟨4, "Bea", "Ng", "bea@e", "1", none, none, 0, 0, 2⟩] 9 =
      (none, [⟨4, "Bea", "Ng", "bea@e", "1", none, none, 0, 0, 2⟩]) ∧
    remove_contact 4 ⟨1, "alice", "alice@e", "h", none, none, true⟩
        [⟨4, "Bea", "Ng", "bea@e", "1", none, none, 0, 0, 2⟩] =
      (none, [⟨4, "Bea", "Ng", "bea@e", "1", none, none, 0, 0, 2⟩]) :=
  contact_crud_isolation
    [⟨4, "Bea", "Ng", "bea@e", "1", none, none, 0, 0, 2⟩]
    ⟨1, "alice", "alice@e", "h", none, none, true⟩
    ⟨2, "bob", "bob@e", "h", none, none, true⟩
    ⟨4, "Bea", "Ng", "bea@e", "1", none, none, 0, 0, 2⟩
    ⟨some "X", none, none, none, none, none⟩ 9
    (by decide) rfl (by decide) (by decide)

/-! ## Claim C7: update with an empty patch -/

/-- Putting the fetched row back in place of itself leaves the table
unchanged. -/
theorem replaceFirst_self (p : Contact → Bool) (c : Contact)
    (l : List Contact) (h : l.find? p = some c) :
    replaceFirst p c l = l := by
  induction l with
  | nil => simp at h
  | cons x xs ih =>
      by_cases hx : p x
      · rw [List.find?_cons_of_pos _ hx] at h
        injection h with h
        subst h
        simp [replaceFirst, hx]
      · rw [List.find?_cons_of_neg _ hx] at h
        simp [replaceFirst, hx, ih h]

/-- C7, counterexample. The claim says an empty patch bumps `updated_at`.
With no field set, no attribute changes, SQLAlchemy emits no UPDATE, and
`onupdate=func.now()` never fires: the row keeps `updated_at = 5` although
the mutation time is 99. -/
theorem update_contact_empty_patch_refuted :
    update_contact 3 ⟨none, none, none, none, none, none⟩
        ⟨1, "alice", "alice@e", "h", none, none, true⟩
        [⟨3, "Cat", "Doe", "cat@e", "7", some ⟨1990, 1, 1⟩, none, 5, 5, 1⟩] 99 =
      (some ⟨3, "Cat", "Doe", "cat@e", "7", some ⟨1990, 1, 1⟩, none, 5, 5, 1⟩,
        [⟨3, "Cat", "Doe", "cat@e", "7", some ⟨1990, 1, 1⟩, none, 5, 5, 1⟩]) ∧
    (5 : Nat) ≠ 99 :=
  ⟨rfl, by decide⟩

/-- C7, amended: an empty patch leaves the found contact and the store
completely unchanged, `updated_at` included; in general, every field not
set in the patch keeps its prior value, and `id`, `created_at` and
`user_id` are never touched. -/
theorem update_contact_frame (cid : Nat) (patch : ContactUpdate)
    (user : User) (db : List Contact) (now : Nat) (c : Contact)
    (hfind : db.find? (ownedBy cid user) = some c) :
    (patch = ⟨none, none, none, none, none, none⟩ →
      update_contact cid patch user db now = (some c, db)) ∧
    ∀ c', (update_contact cid patch user db now).1 = some c' →
      (patch.first_name = none → c'.first_name = c.first_name) ∧
      (patch.last_name = none → c'.last_name = c.last_name) ∧
      (patch.email = none → c'.email = c.email) ∧
      (patch.phone_number = none → c'.phone_number = c.phone_number) ∧
      (patch.birthday = none → c'.birthday = c.birthday) ∧
      (patch.additional_info = none → c'.additional_info = c.additional_info) ∧
      c'.id = c.id ∧ c'.created_at = c.created_at ∧ c'.user_id = c.user_id := by
  constructor
  · intro hp
    subst hp
    have happ : applyPatch ⟨none, none, none, none, none, none⟩ c = c := rfl
    have hap : patchedContact ⟨none, none, none, none, none, none⟩ c now = c := by
      unfold patchedContact
      rw [if_pos happ]
    simp only [update_contact, hfind, hap, replaceFirst_self _ _ _ hfind]
  · intro c' hc'
    simp only [update_contact, hfind, Option.some.injEq] at hc'
    subst hc'
    unfold patchedContact
    by_cases hch : applyPatch patch c = c
    · rw [if_pos hch, ← hch]
      refine ⟨?_, ?_, ?_, ?_, ?_, ?_, rfl, rfl, rfl⟩ <;>
        · intro h
          simp [applyPatch, h]
    · rw [if_neg hch]
      refine ⟨?_, ?_, ?_, ?_, ?_, ?_, rfl, rfl, rfl⟩ <;>
        · intro h
          simp [applyPatch, h]

/-- C7, witness: a patch setting only `first_name` keeps every other field
of the stored contact. -/
theorem update_contact_frame_witness :
    ((⟨some "Kit", none, none, none, none, none⟩ : ContactUpdate) =
        ⟨none, none, none, none, none, none⟩ →
      update_contact 3 ⟨some "Kit", none, none, none, none, none⟩
          ⟨1, "alice", "alice@e", "h", none, none, true⟩
          [⟨3, "Cat", "Doe", "cat@e", "7", some ⟨1990, 1, 1⟩, none, 5, 5, 1⟩] 99 =
        (some ⟨3, "Cat", "Doe", "cat@e", "7", some ⟨1990, 1, 1⟩, none, 5, 5, 1⟩,
          [⟨3, "Cat", "Doe", "cat@e", "7", some ⟨1990, 1, 1⟩, none, 5, 5, 1⟩])) ∧
    ∀ c', (update_contact 3 ⟨some "Kit", none, none, none, none, none⟩
        ⟨1, "alice", "alice@e", "h", none, none, true⟩
        [⟨3, "Cat", "Doe", "cat@e", "7", some ⟨1990, 1, 1⟩, none, 5, 5, 1⟩] 99).1 =
          some c' →
      ((⟨some "Kit", none, none, none, none, none⟩ : ContactUpdate).first_name = none →
        c'.first_name = "Cat") ∧
      ((⟨some "Kit", none, none, none, none, none⟩ : ContactUpdate).last_name = none →
        c'.last_name = "Doe") ∧
      ((⟨some "Kit", none, none, none, none, none⟩ : ContactUpdate).email = none →
        c'.email = "cat@e") ∧
      ((⟨some "Kit", none, none, none, none, none⟩ : ContactUpdate).phone_number = none →
        c'.phone_number = "7") ∧
      ((⟨some "Kit", none, none, none, none, none⟩ : ContactUpdate).birthday = none →
        c'.birthday = some ⟨1990, 1, 1⟩) ∧
      ((⟨some "Kit", none, none, none, none, none⟩ : ContactUpdate).additional_info = none →
        c'.additional_info = none) ∧
      c'.id = 3 ∧ c'.created_at = 5 ∧ c'.user_id = 1 :=
  update_contact_frame 3 ⟨some "Kit", none, none, none, none, none⟩
    ⟨1, "alice", "alice@e", "h", none, none, true⟩
    [⟨3, "Cat", "Doe", "cat@e", "7", some ⟨1990, 1, 1⟩, none, 5, 5, 1⟩] 99
    ⟨3, "Cat", "Doe", "cat@e", "7", some ⟨1990, 1, 1⟩, none, 5, 5, 1⟩ rfl

/-! ## Claim C10: global uniqueness of contact emails -/

/-- C10: the unique constraint on `contacts.email` is global, not
per-owner. Creating a contact fails with the creation error and leaves the
store unchanged whenever any existing contact of any principal already has
the requested email, and creation preserves pairwise distinctness of the
stored emails. -/
theorem contact_email_global_uniqueness
    (body : ContactModel) (user : User) (db : List Contact)
    (new_id now : Nat) :
    ((∃ c ∈ db, c.email = body.email) →
      create_contact body user db new_id now = (Except.error Err.badRequest, db)) ∧
    (db.Pairwise (fun x y => x.email ≠ y.email) →
      (create_contact body user db new_id now).2.Pairwise
        (fun x y => x.email ≠ y.email)) := by
  constructor
  · rintro ⟨c, hc, he⟩
    unfold create_contact
    rw [if_pos]
    exact List.any_eq_true.mpr ⟨c, hc, by simp [he]⟩
  · intro hp
    unfold create_contact
    by_cases ha : db.any (fun c => c.email == body.email) = true
    · rw [if_pos ha]
      exact hp
    · rw [if_neg ha]
      simp only
      rw [List.pairwise_append]
      refine ⟨hp, List.pairwise_singleton _ _, ?_⟩
      intro x hx y hy
      simp only [List.mem_singleton] at hy
      subst hy
      have hne : ∀ c ∈ db, (c.email == body.email) = false := by
        intro c hc
        by_contra hcc
        exact ha (List.any_eq_true.mpr ⟨c, hc, by simpa using hcc⟩)
      have := hne x hx
      simpa using this
  
/-- C10, witness: principal 1 cannot create a contact with the email that
principal 2's contact already holds, and distinctness is preserved. -/
theorem contact_email_global_uniqueness_witness :
    ((∃ c ∈ [(⟨7, "Bea", "Ng", "dup@e", "1", none, none, 0, 0, 2⟩ : Contact)],
        c.email = (⟨"Ann", "Lee", "dup@e", "9", ⟨2000, 1, 1⟩, none⟩ : ContactModel).email) →
      create_contact ⟨"Ann", "Lee", "dup@e", "9", ⟨2000, 1, 1⟩, none⟩
          ⟨1, "alice", "alice@e", "h", none, none, true⟩
          [⟨7, "Bea", "Ng", "dup@e", "1", none, none, 0, 0, 2⟩] 8 9 =
        (Except.error Err.badRequest,
          [⟨7, "Bea", "Ng", "dup@e", "1", none, none, 0, 0, 2⟩])) ∧
    (List.Pairwise (fun x y => x.email ≠ y.email)
        [(⟨7, "Bea", "Ng", "dup@e", "1", none, none, 0, 0, 2⟩ : Contact)] →
      (create_contact ⟨"Ann", "Lee", "dup@e", "9", ⟨2000, 1, 1⟩, none⟩
          ⟨1, "alice", "alice@e", "h", none, none, true⟩
          [⟨7, "Bea", "Ng", "dup@e", "1", none, none, 0, 0, 2⟩] 8 9).2.Pairwise
        (fun x y => x.email ≠ y.email)) :=
  contact_email_global_uniqueness
    ⟨"Ann", "Lee", "dup@e", "9", ⟨2000, 1, 1⟩, none⟩
    ⟨1, "alice", "alice@e", "h", none, none, true⟩
    [⟨7, "Bea", "Ng", "dup@e", "1", none, none, 0, 0, 2⟩] 8 9

/-! ## Claim C4: refresh with an unknown subject -/

/-- C4: the `/refresh_token` handler never checks the user for `None`. For
a validly signed, unexpired refresh token whose subject has no principal in
the store, `user.refresh_token` is evaluated on `None` and the request dies
with an uncaught `AttributeError` instead of the rejection the spec
requires (every other handler in the same file does check `user`). -/
theorem refresh_token_missing_user_crash :
    refresh_token (create_refresh_token "ghost@e" 0 none) 1 [] =
      (Except.error Err.attributeError, []) ∧
    refresh_token (create_refresh_token "ghost@e" 0 none) 1
        [⟨1, "alice", "alice@e", "h", none, none, true⟩] =
      (Except.error Err.attributeError,
        [⟨1, "alice", "alice@e", "h", none, none, true⟩]) :=
  ⟨rfl, rfl⟩

/-! ## Claim C8: login requires a confirmed email -/

/-- C8: when the stored principal is unconfirmed, `/login` answers 401
before the password is even consulted (the theorem holds for every
`verify_password`, in particular one that accepts): no token is minted and
the stored refresh token is untouched. -/
theorem login_unconfirmed_rejected
    (verify_password : String → String → Bool)
    (username password : String) (now : Nat) (db : List User) (u : User)
    (hu : get_user_by_email username db = some u)
    (hconf : u.confirmed = false) :
    login verify_password username password now db =
      (Except.error Err.unauthenticated, db) := by
  simp only [login, hu, hconf]
  simp

/-- C8, witness: an unconfirmed user with a password checker that accepts
everything is still rejected and the table survives unchanged. -/
theorem login_unconfirmed_rejected_witness :
    login (fun _ _ => true) "carl@e" "pw" 3
        [⟨5, "carl", "carl@e", "h", none, none, false⟩] =
      (Except.error Err.unauthenticated,
        [⟨5, "carl", "carl@e", "h", none, none, false⟩]) :=
  login_unconfirmed_rejected (fun _ _ => true) "carl@e" "pw" 3
    [⟨5, "carl", "carl@e", "h", none, none, false⟩]
    ⟨5, "carl", "carl@e", "h", none, none, false⟩ rfl rfl

/-! ## Claim C9: email-token consumption has no scope validation -/

/-- C9: `get_email_from_token` checks only signature and expiry and reads
the subject; any validly signed, unexpired token with a subject — however
it was minted, including via `create_access_token` or
`create_refresh_token` — yields its subject instead of being rejected, so
confining email tokens to the confirmation/reset flows is purely a matter
of routing. -/
theorem email_token_no_scope_validation
    (t : Token) (now : Nat) (e : String)
    (hsig : t.sig_ok = true) (hexp : now ≤ t.exp) (hsub : t.sub = some e) :
    get_email_from_token t now = Except.ok e := by
  simp only [get_email_from_token, decodeOk, hsig, hexp, hsub]
  simp

/-- C9, witness: an access token and a refresh token both pass the
email-token consumption path. -/
theorem email_token_no_scope_validation_witness :
    get_email_from_token (create_access_token "dora@e" 0 none) 5 =
      Except.ok "dora@e" ∧
    get_email_from_token (create_refresh_token "dora@e" 0 none) 5 =
      Except.ok "dora@e" :=
  ⟨email_token_no_scope_validation (create_access_token "dora@e" 0 none) 5
      "dora@e" rfl (by decide) rfl,
    email_token_no_scope_validation (create_refresh_token "dora@e" 0 none) 5
      "dora@e" rfl (by decide) rfl⟩

/-! ## Claim C3: principal resolution and the cache -/

/-- C3, counterexample. The claim says a cache-collaborator failure is
treated exactly like a miss and the request still succeeds by reading the
store. There is no try/except around `self.r.get`: with the very same valid
token and store, a miss succeeds and re-populates the cache, while a
failure aborts the request with the propagated exception. -/
theorem get_current_user_cache_failure_refuted :
    get_current_user (create_access_token "alice@e" 0 none) 1 CacheGet.failure
        [⟨1, "alice", "alice@e", "h", none, none, true⟩] =
      (Except.error Err.upstreamError, CacheAction.noop) ∧
    get_current_user (create_access_token "alice@e" 0 none) 1 CacheGet.miss
        [⟨1, "alice", "alice@e", "h", none, none, true⟩] =
      (Except.ok ⟨1, "alice", "alice@e", "h", none, none, true⟩,
        CacheAction.setWithExpire "user:alice@e"
          ⟨1, "alice", "alice@e", "h", none, none, true⟩ 900) ∧
    (Except.error Err.upstreamError ≠
      (Except.ok (⟨1, "alice", "alice@e", "h", none, none, true⟩ : User) :
        Except Err User)) := by
  refine ⟨rfl, rfl, ?_⟩
  intro h
  cases h

/-- C3, amended: for a valid access token, resolution reads the cache by
subject; a hit returns the cached snapshot without touching the store, a
miss reads the store and populates the cache with a 900-second expiry — but
a cache failure is NOT degraded to a miss: the exception propagates and the
request fails instead of falling back to the store. -/
theorem get_current_user_cache_policy
    (t : Token) (now : Nat) (db : List User) (u cached : User)
    (email : String) (hsig : t.sig_ok = true) (hexp : now ≤ t.exp)
    (hscope : t.scope = some "access_token") (hsub : t.sub = some email) :
    get_current_user t now (CacheGet.hit cached) db =
      (Except.ok cached, CacheAction.noop) ∧
    (get_user_by_email email db = some u →
      get_current_user t now CacheGet.miss db =
        (Except.ok u,
          CacheAction.setWithExpire (String.append "user:" email) u 900)) ∧
    get_current_user t now CacheGet.failure db =
      (Except.error Err.upstreamError, CacheAction.noop) := by
  refine ⟨?_, ?_, ?_⟩
  · simp [get_current_user, decodeOk, hsig, hexp, hscope, hsub]
  · intro hu
    simp [get_current_user, decodeOk, hsig, hexp, hscope, hsub, hu]
  · simp [get_current_user, decodeOk, hsig, hexp, hscope, hsub]

/-- C3, witness: hit, miss and failure behaviour at a concrete token,
store and snapshot. -/
theorem get_current_user_cache_policy_witness :
    get_current_user (create_access_token "alice@e" 0 none) 1
        (CacheGet.hit ⟨1, "al", "alice@e", "old", none, none, true⟩)
        [⟨1, "alice", "alice@e", "h", none, none, true⟩] =
      (Except.ok ⟨1, "al", "alice@e", "old", none, none, true⟩,
        CacheAction.noop) ∧
    (get_user_by_email "alice@e"
        [⟨1, "alice", "alice@e", "h", none, none, true⟩] =
          some ⟨1, "alice", "alice@e", "h", none, none, true⟩ →
      get_current_user (create_access_token "alice@e" 0 none) 1 CacheGet.miss
          [⟨1, "alice", "alice@e", "h", none, none, true⟩] =
        (Except.ok ⟨1, "alice", "alice@e", "h", none, none, true⟩,
          CacheAction.setWithExpire (String.append "user:" "alice@e")
            ⟨1, "alice", "alice@e", "h", none, none, true⟩ 900)) ∧
    get_current_user (create_access_token "alice@e" 0 none) 1 CacheGet.failure
        [⟨1, "alice", "alice@e", "h", none, none, true⟩] =
      (Except.error Err.upstreamError, CacheAction.noop) :=
  get_current_user_cache_policy (create_access_token "alice@e" 0 none) 1
    [⟨1, "alice", "alice@e", "h", none, none, true⟩]
    ⟨1, "alice", "alice@e", "h", none, none, true⟩
    ⟨1, "al", "alice@e", "old", none, none, true⟩
    "alice@e" rfl (by decide) rfl rfl

/-! ## Claim C6: scope discipline of token consumption -/

/-- C6: a validly signed, unexpired token bearing a scope other than
`access_token` is rejected with 401 by principal resolution; one bearing a
scope other than `refresh_token` is rejected with 401 by the refresh
decoder; and an expired token is rejected with 401 on both paths whatever
its scope. -/
theorem token_scope_enforcement
    (t : Token) (now : Nat) (cache : CacheGet User) (db : List User)
    (s : String) :
    (t.sig_ok = true → t.scope = some s → s ≠ "access_token" →
      now ≤ t.exp →
      (get_current_user t now cache db).1 = Except.error Err.unauthenticated) ∧
    (t.sig_ok = true → t.scope = some s → s ≠ "refresh_token" →
      now ≤ t.exp →
      decode_refresh_token t now = Except.error Err.unauthenticated) ∧
    (t.exp < now →
      (get_current_user t now cache db).1 = Except.error Err.unauthenticated ∧
      decode_refresh_token t now = Except.error Err.unauthenticated) := by
  refine ⟨?_, ?_, ?_⟩
  · intro hsig hscope hs hexp
    simp [get_current_user, decodeOk, hsig, hexp, hscope, hs]
  · intro hsig hscope hs hexp
    simp [decode_refresh_token, decodeOk, hsig, hexp, hscope, hs]
  · intro hexp
    have hne : ¬ now ≤ t.exp := by omega
    constructor
    · simp [get_current_user, decodeOk, hne]
    · simp [decode_refresh_token, decodeOk, hne]

/-- C6, witness: a refresh token fails the access path, an access token
fails the refresh path, and an access token past its 900-second life fails
both. -/
theorem token_scope_enforcement_witness :
    (get_current_user (create_refresh_token "a@e" 0 none) 5 CacheGet.miss []).1 =
      Except.error Err.unauthenticated ∧
    decode_refresh_token (create_access_token "a@e" 0 none) 5 =
      Except.error Err.unauthenticated ∧
    ((get_current_user (create_access_token "a@e" 0 none) 2000
        CacheGet.miss []).1 = Except.error Err.unauthenticated ∧
      decode_refresh_token (create_access_token "a@e" 0 none) 2000 =
        Except.error Err.unauthenticated) :=
  ⟨(token_scope_enforcement (create_refresh_token "a@e" 0 none) 5
      CacheGet.miss [] "refresh_token").1 rfl rfl (by decide) (by decide),
    (token_scope_enforcement (create_access_token "a@e" 0 none) 5
      CacheGet.miss [] "access_token").2.1 rfl rfl (by decide) (by decide),
    (token_scope_enforcement (create_access_token "a@e" 0 none) 2000
      CacheGet.miss [] "access_token").2.2 (by decide)⟩

/-! ## Claim C2: refresh-token rotation rejects replay -/

/-- `find?` commutes with a map that does not disturb the predicate. -/
theorem find?_map_pred {α : Type} (p : α → Bool) (f : α → α) (l : List α)
    (hf : ∀ a, p (f a) = p a) :
    (l.map f).find? p = (l.find? p).map f := by
  induction l with
  | nil => rfl
  | cons x xs ih =>
      by_cases hx : p x = true
      · rw [List.map_cons, List.find?_cons_of_pos _ (by rw [hf]; exact hx),
          List.find?_cons_of_pos _ hx]
        rfl
      · rw [List.map_cons, List.find?_cons_of_neg _ (by rw [hf]; exact hx),
          List.find?_cons_of_neg _ hx, ih]

/-- Rewriting a user's stored refresh token leaves them findable by email,
now carrying the new token. -/
theorem get_user_by_email_update_token (email : String) (t : Option Token)
    (db : List User) (u : User)
    (h : get_user_by_email email db = some u) :
    get_user_by_email email (update_token email t db) =
      some { u with refresh_token := t } := by
  unfold get_user_by_email at h
  have hu := List.find?_some h
  have hf : ∀ x : User,
      ((if x.email == email then { x with refresh_token := t } else x).email
        == email) = (x.email == email) := by
    intro x
    by_cases hx : (x.email == email) = true
    · simp [hx]
    · simp [hx]
  unfold get_user_by_email update_token
  rw [find?_map_pred (fun x => x.email == email)
    (fun x => if x.email == email then { x with refresh_token := t } else x)
    db hf]
  rw [h]
  simp only [beq_iff_eq] at hu
  simp [hu]

/-- Inversion of a successful refresh decode: the token verifies, is
unexpired, carries the refresh scope, and its subject is the result. -/
theorem decode_refresh_token_ok_inv (t : Token) (now : Nat) (email : String)
    (h : decode_refresh_token t now = Except.ok email) :
    t.sig_ok = true ∧ now ≤ t.exp ∧ t.scope = some "refresh_token" ∧
      t.sub = some email := by
  unfold decode_refresh_token at h
  split at h
  · rename_i hd
    simp only [decodeOk, Bool.and_eq_true, decide_eq_true_eq] at hd
    split at h
    · simp at h
    · rename_i s hscope
      split at h
      · rename_i hs
        split at h
        · simp at h
        · rename_i e hsub
          simp only [Except.ok.injEq] at h
          subst h
          simp only [beq_iff_eq] at hs
          subst hs
          exact ⟨hd.1, hd.2, hscope, hsub⟩
      · simp at h
  · simp at h

/-- C2: after a refresh succeeds with `t_old` (storing the freshly minted
`tnew`), presenting `t_old` again — still validly signed and unexpired, but
no longer equal to the stored token — fails with 401 and clears the
principal's stored refresh token. -/
theorem refresh_rotation_replay_rejected
    (t_old a tnew : Token) (now1 now2 : Nat) (db db1 : List User)
    (email : String)
    (h1 : refresh_token t_old now1 db = (Except.ok (a, tnew), db1))
    (hsub : t_old.sub = some email)
    (hexp : now2 ≤ t_old.exp)
    (hne : t_old ≠ tnew) :
    refresh_token t_old now2 db1 =
      (Except.error Err.unauthenticated, update_token email none db1) := by
  unfold refresh_token at h1
  split at h1
  · simp at h1
  · rename_i em hdec
    obtain ⟨hsig, hexp1, hscope, hsub'⟩ :=
      decode_refresh_token_ok_inv _ _ _ hdec
    rw [hsub] at hsub'
    have hem := Option.some.inj hsub'
    subst hem
    split at h1
    · simp at h1
    · rename_i u huser
      split at h1
      · simp at h1
      · rename_i hm
        simp only [Prod.mk.injEq, Except.ok.injEq] at h1
        obtain ⟨⟨ha, htnew⟩, hdb1⟩ := h1
        subst htnew
        subst hdb1
        have hdec2 : decode_refresh_token t_old now2 = Except.ok email := by
          simp [decode_refresh_token, decodeOk, hsig, hexp, hscope, hsub]
        have huser2 := get_user_by_email_update_token email
          (some (create_refresh_token email now1 none)) db u huser
        have hcond :
            ({ u with refresh_token := some (create_refresh_token email now1 none) } : User).refresh_token ≠ some t_old :=
          fun hh => hne (Option.some.inj hh).symm
        simp only [refresh_token, hdec2, huser2]
        rw [if_pos hcond]

/-- C2, witness: the rotation scenario at a concrete store, with the
replayed token still days from expiry. -/
theorem refresh_rotation_replay_rejected_witness :
    refresh_token (create_refresh_token "a" 0 none) 20
        (update_token "a" (some (create_refresh_token "a" 10 none))
          [⟨1, "u", "a", "h", none, some (create_refresh_token "a" 0 none), true⟩]) =
      (Except.error Err.unauthenticated,
        update_token "a" none
          (update_token "a" (some (create_refresh_token "a" 10 none))
            [⟨1, "u", "a", "h", none, some (create_refresh_token "a" 0 none), true⟩])) :=
  refresh_rotation_replay_rejected
    (create_refresh_token "a" 0 none) (create_access_token "a" 10 none)
    (create_refresh_token "a" 10 none) 10 20
    [⟨1, "u", "a", "h", none, some (create_refresh_token "a" 0 none), true⟩]
    (update_token "a" (some (create_refresh_token "a" 10 none))
      [⟨1, "u", "a", "h", none, some (create_refresh_token "a" 0 none), true⟩])
    "a" rfl rfl (by decide) (by decide)
